import Mathlib

/-!
Shallow embedding of the RAG evaluation pipeline (ragas-evaluation.py):
record loading with field defaults, the four heuristic metric functions,
per-record evaluation, the role-grouped aggregation, and the external-scorer
dispatch in the main pipeline.  Scores are modelled as rationals with
round-half-to-even rounding at three decimal digits.
-/

/-- Round-half-to-even of a rational to an integer (bankers rounding, as used
by the round builtin in the source language). -/
def roundHalfEven (q : ℚ) : ℤ :=
  if q - (⌊q⌋ : ℚ) < 1/2 then ⌊q⌋
  else if 1/2 < q - (⌊q⌋ : ℚ) then ⌊q⌋ + 1
  else if ⌊q⌋ % 2 = 0 then ⌊q⌋ else ⌊q⌋ + 1

/-- Rounding to 3 decimal digits, round-half-to-even. -/
def round3 (q : ℚ) : ℚ := ((roundHalfEven (q * 1000) : ℤ) : ℚ) / 1000

lemma le_roundHalfEven {q : ℚ} {n : ℤ} (h : (n : ℚ) ≤ q) : n ≤ roundHalfEven q := by
  have hf : n ≤ ⌊q⌋ := Int.le_floor.mpr h
  unfold roundHalfEven
  split_ifs <;> omega

lemma roundHalfEven_le {q : ℚ} {n : ℤ} (h : q ≤ (n : ℚ)) : roundHalfEven q ≤ n := by
  have hf : ⌊q⌋ ≤ n := by
    have h1 : ⌊q⌋ ≤ ⌊(n : ℚ)⌋ := Int.floor_le_floor h
    simpa using h1
  have hfq : (⌊q⌋ : ℚ) ≤ q := Int.floor_le q
  unfold roundHalfEven
  split_ifs with h1 h2 h3
  · exact hf
  · rcases lt_or_eq_of_le hf with hlt | heq
    · omega
    · exfalso
      have hq : q - (⌊q⌋ : ℚ) = 0 := by
        rw [sub_eq_zero]
        exact le_antisymm (by rw [heq]; exact h) hfq
      rw [hq] at h2
      norm_num at h2
  · exact hf
  · rcases lt_or_eq_of_le hf with hlt | heq
    · omega
    · exfalso
      apply h1
      have hq : q - (⌊q⌋ : ℚ) = 0 := by
        rw [sub_eq_zero]
        exact le_antisymm (by rw [heq]; exact h) hfq
      rw [hq]
      norm_num

lemma round3_nonneg {q : ℚ} (h : 0 ≤ q) : 0 ≤ round3 q := by
  unfold round3
  apply div_nonneg _ (by norm_num)
  have h2 : (0 : ℤ) ≤ roundHalfEven (q * 1000) :=
    le_roundHalfEven (by push_cast; nlinarith)
  exact_mod_cast h2

lemma round3_le_one {q : ℚ} (h : q ≤ 1) : round3 q ≤ 1 := by
  unfold round3
  rw [div_le_one (by norm_num)]
  have h2 : roundHalfEven (q * 1000) ≤ (1000 : ℤ) :=
    roundHalfEven_le (by push_cast; nlinarith)
  exact_mod_cast h2

lemma round3_zero : round3 0 = 0 := by
  norm_num [round3, roundHalfEven]

example : round3 (9/10) = 9/10 := by norm_num [round3, roundHalfEven]
example : round3 (1/2000) = 0 := by norm_num [round3, roundHalfEven]
example : round3 (3/2000) = 2/1000 := by norm_num [round3, roundHalfEven]

/-- Per-character lowercasing of a string, modelling the lower() method. -/
def lowerStr (s : String) : String := String.mk (s.data.map Char.toLower)

/-- Helper for whitespace tokenization: walks the character list, accumulating
the current (reversed) token, emitting it when whitespace or the end is hit. -/
def pyWordsAux (acc : List Char) : List Char → List String
  | [] => if acc = [] then [] else [String.mk acc.reverse]
  | c :: cs =>
    if c.isWhitespace then
      if acc = [] then pyWordsAux [] cs
      else String.mk acc.reverse :: pyWordsAux [] cs
    else pyWordsAux (c :: acc) cs

/-- Whitespace tokenization of a string: maximal runs of non-whitespace
characters, modelling the no-argument split() method. -/
def pySplit (s : String) : List String := pyWordsAux [] s.data

/-- Join a list of strings with a separator, modelling sep.join(list). -/
def joinSep (sep : String) : List String → String
  | [] => ""
  | [a] => a
  | a :: b :: rest => a ++ sep ++ joinSep sep (b :: rest)

example : pySplit "  the cat  sat " = ["the", "cat", "sat"] := by decide
example : pySplit "" = [] := by decide
example : pySplit "   " = [] := by decide
example : lowerStr "AbC d" = "abc d" := by decide
example : joinSep " " ["ab", "cd"] = "ab cd" := by decide

lemma lowerStr_append (a b : String) : lowerStr (a ++ b) = lowerStr a ++ lowerStr b := by
  cases a with
  | mk da =>
    cases b with
    | mk db =>
      show String.mk ((da ++ db).map Char.toLower)
          = String.mk (da.map Char.toLower) ++ String.mk (db.map Char.toLower)
      show String.mk ((da ++ db).map Char.toLower)
          = String.mk (da.map Char.toLower ++ db.map Char.toLower)
      rw [List.map_append]

lemma joinSep_cons_cons (sep a b : String) (rest : List String) :
    joinSep sep (a :: b :: rest) = a ++ sep ++ joinSep sep (b :: rest) := rfl

/-- Lowercasing commutes with space-joining: lowering the joined context text
equals joining the individually lowered documents. -/
lemma lowerStr_joinSep (docs : List String) :
    lowerStr (joinSep " " docs) = joinSep " " (docs.map lowerStr) := by
  induction docs with
  | nil => rfl
  | cons a rest ih =>
    cases rest with
    | nil => rfl
    | cons b rest2 =>
      have hsp : lowerStr " " = " " := by decide
      simp only [List.map_cons] at ih ⊢
      rw [joinSep_cons_cons, joinSep_cons_cons, lowerStr_append, lowerStr_append, hsp, ih]

/-- Raw metadata object of one input record; every field is optional,
mirroring dictionary lookups with defaults in the source. -/
structure RawMetadata where
  userRole : Option String
  processingTimeMs : Option Int
  sourceCount : Option Int
  sessionId : Option String
  timestamp : Option String
deriving DecidableEq

/-- One raw input record from the results array; every field is optional. -/
structure RawResult where
  query : Option String
  generated_response : Option String
  retrieved_documents : Option (List String)
  metadata : Option RawMetadata
deriving DecidableEq

/-- The top-level input document: the results field may be absent. -/
structure InputData where
  results : Option (List RawResult)
deriving DecidableEq

/-- load_results: data.get of the results key with an empty-list default. -/
def load_results (d : InputData) : List RawResult := d.results.getD []

/-- An absent metadata object behaves as an empty dictionary. -/
def emptyRawMetadata : RawMetadata := ⟨none, none, none, none, none⟩

/-- The four heuristic metric scores of one evaluation. -/
structure Metrics where
  faithfulness : ℚ
  answer_relevancy : ℚ
  context_precision : ℚ
  context_recall : ℚ
deriving DecidableEq

/-- The metadata carried into an evaluation, with defaults applied. -/
structure EvalMetadata where
  user_role : String
  processing_time_ms : Int
  source_count : Int
  session_id : String
  timestamp : String
deriving DecidableEq

/-- One per-record evaluation: query, metric set, metadata, overall score. -/
structure Evaluation where
  query : String
  metrics : Metrics
  metadata : EvalMetadata
  overall_score : ℚ
deriving DecidableEq

/-- Arithmetic mean of a list of rationals (division by zero yields zero). -/
def meanQ (l : List ℚ) : ℚ := l.sum / (l.length : ℚ)

/-- The overlap fraction inside the faithfulness heuristic: distinct tokens of
the lowered response that occur among the tokens of the lowered space-joined
context, divided by the count of distinct response tokens, with the
division guarded on a positive denominator. -/
def faithfulnessOverlapFrac (response : String) (context : List String) : ℚ :=
  if 0 < ((pySplit (lowerStr response)).dedup).length then
    (((((pySplit (lowerStr response)).dedup).filter
        (fun w => w ∈ ((pySplit (lowerStr (joinSep " " context))).dedup))).length : ℚ))
      / ((((pySplit (lowerStr response)).dedup).length : ℚ))
  else 0

/-- Heuristic faithfulness: word overlap between response and context. -/
def calculate_faithfulness_heuristic (response : String) (context : List String) : ℚ :=
  if context = [] ∨ response = "" then 0
  else round3 (min (faithfulnessOverlapFrac response context) 1)

/-- The overlap fraction inside the relevancy heuristic: distinct tokens of the
lowered query that occur among the tokens of the lowered response, divided by
the count of distinct query tokens, with the division guarded. -/
def relevancyOverlapFrac (query response : String) : ℚ :=
  if 0 < ((pySplit (lowerStr query)).dedup).length then
    (((((pySplit (lowerStr query)).dedup).filter
        (fun w => w ∈ ((pySplit (lowerStr response)).dedup))).length : ℚ))
      / ((((pySplit (lowerStr query)).dedup).length : ℚ))
  else 0

/-- Heuristic answer relevancy: word overlap between query and response. -/
def calculate_relevancy_heuristic (query response : String) : ℚ :=
  if query = "" ∨ response = "" then 0
  else round3 (min (relevancyOverlapFrac query response) 1)

/-- Heuristic context precision: average document character length over 500. -/
def calculate_precision_heuristic (context : List String) : ℚ :=
  if context = [] then 0
  else
    round3 (min
      ((if context ≠ [] then meanQ (context.map (fun c => (c.length : ℚ))) else 0) / 500)
      1)

/-- Heuristic context recall: number of retrieved documents over 10. -/
def calculate_recall_heuristic (context : List String) : ℚ :=
  if context = [] then 0
  else round3 (min ((context.length : ℚ) / 10) 1)

/-- Heuristic evaluation of a single raw record: applies the field defaults,
computes the four metric scores, and derives the overall score as the rounded
mean of the four. -/
def evaluate_result_heuristic (result : RawResult) : Evaluation :=
  { query := result.query.getD ""
    metrics :=
      { faithfulness :=
          calculate_faithfulness_heuristic (result.generated_response.getD "")
            (result.retrieved_documents.getD [])
        answer_relevancy :=
          calculate_relevancy_heuristic (result.query.getD "")
            (result.generated_response.getD "")
        context_precision :=
          calculate_precision_heuristic (result.retrieved_documents.getD [])
        context_recall :=
          calculate_recall_heuristic (result.retrieved_documents.getD []) }
    metadata :=
      { user_role := ((result.metadata.getD emptyRawMetadata).userRole).getD "unknown"
        processing_time_ms := ((result.metadata.getD emptyRawMetadata).processingTimeMs).getD 0
        source_count := ((result.metadata.getD emptyRawMetadata).sourceCount).getD 0
        session_id := ((result.metadata.getD emptyRawMetadata).sessionId).getD ""
        timestamp := ((result.metadata.getD emptyRawMetadata).timestamp).getD "" }
    overall_score :=
      round3 (meanQ
        [calculate_faithfulness_heuristic (result.generated_response.getD "")
            (result.retrieved_documents.getD []),
          calculate_relevancy_heuristic (result.query.getD "")
            (result.generated_response.getD ""),
          calculate_precision_heuristic (result.retrieved_documents.getD []),
          calculate_recall_heuristic (result.retrieved_documents.getD [])]) }

/-- Per-role aggregate entry: the evaluation count and the rounded means of
the four metric scores and of the overall score for that role group. -/
structure RoleMetrics where
  count : Nat
  faithfulness : ℚ
  answer_relevancy : ℚ
  context_precision : ℚ
  context_recall : ℚ
  overall_score : ℚ
deriving DecidableEq

/-- Global aggregate entry: rounded means of the four metric scores and of
the overall score across all evaluations. -/
structure OverallMetrics where
  faithfulness : ℚ
  answer_relevancy : ℚ
  context_precision : ℚ
  context_recall : ℚ
  overall_score : ℚ
deriving DecidableEq

/-- The aggregate report when at least one evaluation exists. -/
structure AggregateReport where
  total_evaluations : Nat
  overall_metrics : OverallMetrics
  by_role : List (String × RoleMetrics)
deriving DecidableEq

/-- The grouping key of an evaluation. -/
def roleOf (e : Evaluation) : String := e.metadata.user_role

/-- One step of the grouping pass: append the evaluation to its role's group,
creating the group at the end on first encounter (dictionary insertion order). -/
def insertRole (e : Evaluation) : List (String × List Evaluation) → List (String × List Evaluation)
  | [] => [(roleOf e, [e])]
  | (k, v) :: rest =>
    if k = roleOf e then (k, v ++ [e]) :: rest
    else (k, v) :: insertRole e rest

/-- The single grouping pass over the evaluations. -/
def groupByRole (evals : List Evaluation) : List (String × List Evaluation) :=
  evals.foldl (fun acc e => insertRole e acc) []

/-- The per-role statistics computed from one role's group of evaluations. -/
def roleMetricsOf (es : List Evaluation) : RoleMetrics :=
  { count := es.length
    faithfulness := round3 (meanQ (es.map (fun e => e.metrics.faithfulness)))
    answer_relevancy := round3 (meanQ (es.map (fun e => e.metrics.answer_relevancy)))
    context_precision := round3 (meanQ (es.map (fun e => e.metrics.context_precision)))
    context_recall := round3 (meanQ (es.map (fun e => e.metrics.context_recall)))
    overall_score := round3 (meanQ (es.map (fun e => e.overall_score))) }

/-- The global statistics computed from all evaluations. -/
def overallMetricsOf (es : List Evaluation) : OverallMetrics :=
  { faithfulness := round3 (meanQ (es.map (fun e => e.metrics.faithfulness)))
    answer_relevancy := round3 (meanQ (es.map (fun e => e.metrics.answer_relevancy)))
    context_precision := round3 (meanQ (es.map (fun e => e.metrics.context_precision)))
    context_recall := round3 (meanQ (es.map (fun e => e.metrics.context_recall)))
    overall_score := round3 (meanQ (es.map (fun e => e.overall_score))) }

/-- calculate_aggregate_metrics: returns the empty object (modelled as none)
for an empty evaluation list, else the role-grouped aggregate report. -/
def calculate_aggregate_metrics (evals : List Evaluation) : Option AggregateReport :=
  if evals = [] then none
  else some
    { total_evaluations := evals.length
      overall_metrics := overallMetricsOf evals
      by_role := (groupByRole evals).map (fun p => (p.1, roleMetricsOf p.2)) }

/-- A value in the mapping returned by the external scorer: numeric or not. -/
inductive RValue where
  | num (q : ℚ)
  | str (s : String)
deriving DecidableEq

/-- The processed form of an external scorer result: rounded numeric
aggregates under overall_metrics, and an always-empty by_role. -/
structure ProcessedRagas where
  overall_metrics : List (String × ℚ)
  by_role : List (String × RoleMetrics)
deriving DecidableEq

/-- process_ragas_results: empty input yields the empty object (none); else
every numeric entry is rounded to 3 digits into overall_metrics. -/
def process_ragas_results (ragas_results : List (String × RValue)) : Option ProcessedRagas :=
  if ragas_results = [] then none
  else some
    { overall_metrics :=
        ragas_results.filterMap (fun p =>
          match p.2 with
          | RValue.num q => some (p.1, round3 q)
          | RValue.str _ => none)
      by_role := [] }

/-- The three relevant states of the external scoring capability: not
available at all, configured but raising on the batched call, or succeeding
with a mapping of metric name to value. -/
inductive ExternalCap where
  | absent
  | raises
  | succeeds (m : List (String × RValue))
deriving DecidableEq

/-- The two shapes evaluate_all can hand to the caller: the heuristic
per-record evaluations, or the external mapping. -/
inductive EvalAllResult where
  | heuristicEvals (evals : List Evaluation)
  | externalMap (m : List (String × RValue))
deriving DecidableEq

/-- evaluate_all: with the capability absent, and equally when the batched
call raises, every record is scored by the heuristic; on success the external
mapping is returned unchanged. -/
def evaluate_all (results : List RawResult) : ExternalCap → EvalAllResult
  | ExternalCap.absent => EvalAllResult.heuristicEvals (results.map evaluate_result_heuristic)
  | ExternalCap.raises => EvalAllResult.heuristicEvals (results.map evaluate_result_heuristic)
  | ExternalCap.succeeds m => EvalAllResult.externalMap m

/-- The artifacts at the end of the main pipeline: the per-record evaluations
and the aggregate report handed to the reporter. -/
structure MainOutcome where
  evaluations : List Evaluation
  aggregate : Option AggregateReport
deriving DecidableEq

/-- The result-processing step of main: heuristic evaluations are aggregated
directly; an external mapping is processed but that processed aggregate is
then overwritten by the heuristic aggregate, as in the source. An empty
external mapping aborts the pipeline (none). -/
def main_process (results : List RawResult) (cap : ExternalCap) : Option MainOutcome :=
  match evaluate_all results cap with
  | EvalAllResult.heuristicEvals evals =>
    some { evaluations := evals, aggregate := calculate_aggregate_metrics evals }
  | EvalAllResult.externalMap m =>
    if m = [] then none
    else
      let _discarded := process_ragas_results m
      some
        { evaluations := results.map evaluate_result_heuristic
          aggregate := calculate_aggregate_metrics (results.map evaluate_result_heuristic) }

lemma filter_mem_dedup (l X : List String) :
    l.filter (fun w => w ∈ X.dedup) = l.filter (fun w => w ∈ X) := by
  apply List.filter_congr
  intro x _
  simp [List.mem_dedup]

/-- The guarded overlap fraction of the faithfulness heuristic equals the
unguarded fraction over the tokens of the individually lowered documents. -/
lemma faithfulnessOverlapFrac_eq (r : String) (c : List String) :
    faithfulnessOverlapFrac r c
      = ((((pySplit (lowerStr r)).dedup).filter
            (fun w => w ∈ pySplit (joinSep " " (c.map lowerStr)))).length : ℚ)
          / ((((pySplit (lowerStr r)).dedup).length : ℚ)) := by
  unfold faithfulnessOverlapFrac
  rw [lowerStr_joinSep, filter_mem_dedup]
  split_ifs with h
  · rfl
  · have h0 : ((pySplit (lowerStr r)).dedup).length = 0 := by omega
    rw [h0]
    simp

/-- The guarded overlap fraction of the relevancy heuristic equals the
unguarded fraction with membership tested in the raw response token list. -/
lemma relevancyOverlapFrac_eq (q r : String) :
    relevancyOverlapFrac q r
      = ((((pySplit (lowerStr q)).dedup).filter
            (fun w => w ∈ pySplit (lowerStr r))).length : ℚ)
          / ((((pySplit (lowerStr q)).dedup).length : ℚ)) := by
  unfold relevancyOverlapFrac
  rw [filter_mem_dedup]
  split_ifs with h
  · rfl
  · have h0 : ((pySplit (lowerStr q)).dedup).length = 0 := by omega
    rw [h0]
    simp

lemma faithfulnessOverlapFrac_nonneg (r : String) (c : List String) :
    0 ≤ faithfulnessOverlapFrac r c := by
  unfold faithfulnessOverlapFrac
  split_ifs
  · positivity
  · exact le_refl 0

lemma relevancyOverlapFrac_nonneg (q r : String) : 0 ≤ relevancyOverlapFrac q r := by
  unfold relevancyOverlapFrac
  split_ifs
  · positivity
  · exact le_refl 0

lemma round3_mem01 {q : ℚ} (h0 : 0 ≤ q) (h1 : q ≤ 1) :
    0 ≤ round3 q ∧ round3 q ≤ 1 :=
  ⟨round3_nonneg h0, round3_le_one h1⟩

lemma round3_min_mem01 {q : ℚ} (h0 : 0 ≤ q) :
    0 ≤ round3 (min q 1) ∧ round3 (min q 1) ≤ 1 :=
  round3_mem01 (le_min h0 (by norm_num)) (min_le_right q 1)

lemma faithfulness_mem01 (r : String) (c : List String) :
    0 ≤ calculate_faithfulness_heuristic r c ∧ calculate_faithfulness_heuristic r c ≤ 1 := by
  unfold calculate_faithfulness_heuristic
  split_ifs
  · norm_num
  · exact round3_min_mem01 (faithfulnessOverlapFrac_nonneg r c)

lemma relevancy_mem01 (q r : String) :
    0 ≤ calculate_relevancy_heuristic q r ∧ calculate_relevancy_heuristic q r ≤ 1 := by
  unfold calculate_relevancy_heuristic
  split_ifs
  · norm_num
  · exact round3_min_mem01 (relevancyOverlapFrac_nonneg q r)

lemma meanQ_nonneg {l : List ℚ} (h : ∀ x ∈ l, 0 ≤ x) : 0 ≤ meanQ l := by
  unfold meanQ
  apply div_nonneg (List.sum_nonneg h) (Nat.cast_nonneg l.length)

lemma precision_mem01 (c : List String) :
    0 ≤ calculate_precision_heuristic c ∧ calculate_precision_heuristic c ≤ 1 := by
  unfold calculate_precision_heuristic
  split_ifs with h1
  · norm_num
  · apply round3_min_mem01
    apply div_nonneg _ (by norm_num)
    apply meanQ_nonneg
    intro x hx
    rw [List.mem_map] at hx
    obtain ⟨s, _, rfl⟩ := hx
    exact Nat.cast_nonneg s.length

lemma recall_mem01 (c : List String) :
    0 ≤ calculate_recall_heuristic c ∧ calculate_recall_heuristic c ≤ 1 := by
  unfold calculate_recall_heuristic
  split_ifs
  · norm_num
  · exact round3_min_mem01 (by positivity)

lemma meanQ_four (a b c d : ℚ) : meanQ [a, b, c, d] = (a + b + c + d) / 4 := by
  simp [meanQ]
  ring_nf

lemma insertRole_sum_lengths (e : Evaluation) (acc : List (String × List Evaluation)) :
    ((insertRole e acc).map (fun p => p.2.length)).sum
      = ((acc.map (fun p => p.2.length)).sum) + 1 := by
  induction acc with
  | nil => simp [insertRole]
  | cons hd tl ih =>
    obtain ⟨k, v⟩ := hd
    by_cases hk : k = roleOf e
    · simp [insertRole, hk]
      omega
    · simp [insertRole, hk, ih]
      omega

lemma foldl_insertRole_sum (l : List Evaluation) (acc : List (String × List Evaluation)) :
    (((l.foldl (fun a e => insertRole e a) acc)).map (fun p => p.2.length)).sum
      = ((acc.map (fun p => p.2.length)).sum) + l.length := by
  induction l generalizing acc with
  | nil => simp
  | cons e tl ih =>
    rw [List.foldl_cons, ih, insertRole_sum_lengths]
    simp
    omega

lemma mem_keys_insertRole (e : Evaluation) (acc : List (String × List Evaluation)) (k : String) :
    k ∈ (insertRole e acc).map Prod.fst ↔ k ∈ acc.map Prod.fst ∨ k = roleOf e := by
  induction acc with
  | nil => simp [insertRole]
  | cons hd tl ih =>
    obtain ⟨k2, v⟩ := hd
    by_cases hk : k2 = roleOf e
    · subst hk
      simp [insertRole]
      tauto
    · simp [insertRole, hk, ih]
      tauto

lemma mem_keys_foldl (l : List Evaluation) (acc : List (String × List Evaluation)) (k : String) :
    k ∈ ((l.foldl (fun a e => insertRole e a) acc)).map Prod.fst ↔
      k ∈ acc.map Prod.fst ∨ k ∈ l.map roleOf := by
  induction l generalizing acc with
  | nil => simp
  | cons e tl ih =>
    rw [List.foldl_cons, ih, mem_keys_insertRole]
    simp
    tauto

lemma mem_keys_groupByRole (l : List Evaluation) (k : String) :
    k ∈ (groupByRole l).map Prod.fst ↔ k ∈ l.map roleOf := by
  unfold groupByRole
  rw [mem_keys_foldl]
  simp

lemma insertRole_groups_ne_nil (e : Evaluation) (acc : List (String × List Evaluation))
    (h : ∀ p ∈ acc, p.2 ≠ []) : ∀ p ∈ insertRole e acc, p.2 ≠ [] := by
  induction acc with
  | nil =>
    intro p hp
    simp [insertRole] at hp
    subst hp
    simp
  | cons hd tl ih =>
    obtain ⟨k, v⟩ := hd
    intro p hp
    by_cases hk : k = roleOf e
    · simp [insertRole, hk] at hp
      rcases hp with hp | hp
      · subst hp
        simp
      · exact h p (by simp [hp])
    · simp [insertRole, hk] at hp
      rcases hp with hp | hp
      · subst hp
        exact h (k, v) (by simp)
      · exact ih (fun q hq => h q (by simp [hq])) p hp

lemma foldl_groups_ne_nil (l : List Evaluation) (acc : List (String × List Evaluation))
    (h : ∀ p ∈ acc, p.2 ≠ []) :
    ∀ p ∈ l.foldl (fun a e => insertRole e a) acc, p.2 ≠ [] := by
  induction l generalizing acc with
  | nil => simpa using h
  | cons e tl ih =>
    rw [List.foldl_cons]
    exact ih (insertRole e acc) (insertRole_groups_ne_nil e acc h)

lemma groupByRole_groups_ne_nil (l : List Evaluation) :
    ∀ p ∈ groupByRole l, p.2 ≠ [] :=
  foldl_groups_ne_nil l [] (by simp)

/-- First-match lookup in the role-grouping accumulator. -/
def lookupGroup (k : String) : List (String × List Evaluation) → Option (List Evaluation)
  | [] => none
  | (k2, v) :: rest => if k2 = k then some v else lookupGroup k rest

/-- The group stored under a key, empty when the key is absent. -/
def getGroup (k : String) (acc : List (String × List Evaluation)) : List Evaluation :=
  (lookupGroup k acc).getD []

/-- First-match lookup in the by_role mapping of the report. -/
def lookupRole (k : String) : List (String × RoleMetrics) → Option RoleMetrics
  | [] => none
  | (k2, v) :: rest => if k2 = k then some v else lookupRole k rest

lemma getGroup_insertRole (e : Evaluation) (acc : List (String × List Evaluation)) (k : String) :
    getGroup k (insertRole e acc)
      = if roleOf e = k then getGroup k acc ++ [e] else getGroup k acc := by
  induction acc with
  | nil =>
    by_cases h : roleOf e = k <;> simp [insertRole, getGroup, lookupGroup, h]
  | cons hd tl ih =>
    obtain ⟨k2, v⟩ := hd
    by_cases h2 : k2 = roleOf e
    · subst h2
      by_cases hk : roleOf e = k
      · simp [insertRole, getGroup, lookupGroup, hk]
      · simp [insertRole, getGroup, lookupGroup, hk]
    · by_cases hk : k2 = k
      · have hne : ¬ roleOf e = k := fun hc => h2 (hk.trans hc.symm)
        have hne2 : ¬ k = roleOf e := fun hc => h2 (hk.trans hc)
        simp [insertRole, getGroup, lookupGroup, h2, hk, hne, hne2]
      · have hl : getGroup k (insertRole e ((k2, v) :: tl)) = getGroup k (insertRole e tl) := by
          simp [insertRole, getGroup, lookupGroup, h2, hk]
        have hr : getGroup k ((k2, v) :: tl) = getGroup k tl := by
          simp [getGroup, lookupGroup, hk]
        rw [hl, hr, ih]

lemma getGroup_foldl (l : List Evaluation) (acc : List (String × List Evaluation)) (k : String) :
    getGroup k (l.foldl (fun a e => insertRole e a) acc)
      = getGroup k acc ++ l.filter (fun e => roleOf e = k) := by
  induction l generalizing acc with
  | nil => simp
  | cons e tl ih =>
    rw [List.foldl_cons, ih, getGroup_insertRole]
    by_cases h : roleOf e = k
    · simp [h, List.filter_cons]
    · simp [h, List.filter_cons]

lemma getGroup_groupByRole (l : List Evaluation) (k : String) :
    getGroup k (groupByRole l) = l.filter (fun e => roleOf e = k) := by
  unfold groupByRole
  rw [getGroup_foldl]
  simp [getGroup, lookupGroup]

lemma lookupRole_map_roleMetrics (k : String) (l : List (String × List Evaluation)) :
    lookupRole k (l.map (fun p => (p.1, roleMetricsOf p.2)))
      = (lookupGroup k l).map roleMetricsOf := by
  induction l with
  | nil => rfl
  | cons hd tl ih =>
    obtain ⟨k2, v⟩ := hd
    by_cases h : k2 = k <;> simp [lookupRole, lookupGroup, h, ih]

/-- Claim C1, counterexample: on an empty evaluation list the aggregation
step does not return a report carrying total_evaluations = 0 and an empty
by_role; it returns the empty object (none), carrying no fields at all. -/
theorem C1_counterexample :
    ¬ ∃ rep : AggregateReport,
        calculate_aggregate_metrics [] = some rep ∧
        rep.total_evaluations = 0 ∧ rep.by_role = [] := by
  rintro ⟨rep, h, -, -⟩
  simp [calculate_aggregate_metrics] at h

/-- Claim C1 (amended): for zero evaluation records the aggregation step does
not fail, but it returns the empty report object (modelled as none), which
carries no total_evaluations field and no by_role mapping. -/
theorem C1_empty_aggregate_is_empty_object :
    calculate_aggregate_metrics [] = none := rfl

/-- Claim C3: when the external capability is configured but its batched call
raises, the per-record evaluations and the aggregate report are identical to
those produced with the capability absent from the start. -/
theorem C3_raises_equals_absent (results : List RawResult) :
    evaluate_all results ExternalCap.raises = evaluate_all results ExternalCap.absent ∧
    main_process results ExternalCap.raises = main_process results ExternalCap.absent :=
  ⟨rfl, rfl⟩

/-- The faithfulness score as the specification words it: the fraction of
distinct whitespace-delimited lowercased tokens of the generated response
that also occur among the whitespace-delimited tokens of the concatenation of
the lowercased retrieved documents, capped at 1.0 and rounded to 3 digits;
exactly zero when the response or the document list is empty. -/
def faithfulness_spec (response : String) (docs : List String) : ℚ :=
  if response = "" ∨ docs = [] then 0
  else
    round3 (min
      (((((pySplit (lowerStr response)).dedup).filter
          (fun w => w ∈ pySplit (joinSep " " (docs.map lowerStr)))).length : ℚ)
        / ((((pySplit (lowerStr response)).dedup).length : ℚ)))
      1)

/-- Claim C4: the heuristic faithfulness score equals the specification
formula on every input, and is exactly zero when the generated response is
empty or the retrieved document list is empty. -/
theorem C4_faithfulness_formula (response : String) (docs : List String) :
    calculate_faithfulness_heuristic response docs = faithfulness_spec response docs ∧
    ((response = "" ∨ docs = []) → calculate_faithfulness_heuristic response docs = 0) := by
  constructor
  · by_cases h1 : response = ""
    · by_cases h2 : docs = [] <;>
        simp [calculate_faithfulness_heuristic, faithfulness_spec, h1, h2]
    · by_cases h2 : docs = []
      · simp [calculate_faithfulness_heuristic, faithfulness_spec, h1, h2]
      · unfold calculate_faithfulness_heuristic faithfulness_spec
        rw [if_neg (by simp [h1, h2]), if_neg (by simp [h1, h2]), faithfulnessOverlapFrac_eq]
  · intro h
    rcases h with h | h <;> simp [calculate_faithfulness_heuristic, h]

/-- Witness for C4 at a concrete empty input. -/
theorem C4_witness :
    calculate_faithfulness_heuristic "" [] = faithfulness_spec "" [] ∧
    calculate_faithfulness_heuristic "" [] = 0 :=
  ⟨(C4_faithfulness_formula "" []).1, (C4_faithfulness_formula "" []).2 (Or.inl rfl)⟩

/-- The answer relevancy score as the specification words it: the fraction of
distinct lowercased whitespace-delimited tokens of the query that also occur
among the tokens of the generated response, capped at 1.0 and rounded to 3
digits; exactly zero when the query or the response is empty. -/
def relevancy_spec (query response : String) : ℚ :=
  if query = "" ∨ response = "" then 0
  else
    round3 (min
      (((((pySplit (lowerStr query)).dedup).filter
          (fun w => w ∈ pySplit (lowerStr response))).length : ℚ)
        / ((((pySplit (lowerStr query)).dedup).length : ℚ)))
      1)

/-- Claim C8: the heuristic answer relevancy score equals the specification
formula on every input, and is exactly zero when the query or the generated
response is empty. -/
theorem C8_relevancy_formula (query response : String) :
    calculate_relevancy_heuristic query response = relevancy_spec query response ∧
    ((query = "" ∨ response = "") → calculate_relevancy_heuristic query response = 0) := by
  constructor
  · by_cases h : query = "" ∨ response = ""
    · simp [calculate_relevancy_heuristic, relevancy_spec, h]
    · unfold calculate_relevancy_heuristic relevancy_spec
      rw [if_neg h, if_neg h, relevancyOverlapFrac_eq]
  · intro h
    simp [calculate_relevancy_heuristic, h]

/-- Witness for C8 at a concrete empty input. -/
theorem C8_witness :
    calculate_relevancy_heuristic "" "hi" = relevancy_spec "" "hi" ∧
    calculate_relevancy_heuristic "" "hi" = 0 :=
  ⟨(C8_relevancy_formula "" "hi").1, (C8_relevancy_formula "" "hi").2 (Or.inl rfl)⟩

/-- Claim C10: a non-empty input that tokenizes to zero tokens (whitespace
only) passes the emptiness guards, yet the guarded division makes the
faithfulness and relevancy heuristics return exactly zero instead of
dividing by zero. -/
theorem C10_whitespace_tokenless_safe (response query other : String) (context : List String) :
    (response ≠ "" → pySplit (lowerStr response) = [] →
      calculate_faithfulness_heuristic response context = 0) ∧
    (query ≠ "" → pySplit (lowerStr query) = [] →
      calculate_relevancy_heuristic query other = 0) := by
  have hmin : min (0 : ℚ) 1 = 0 := min_eq_left (by norm_num)
  constructor
  · intro h1 h2
    unfold calculate_faithfulness_heuristic
    split_ifs with hg
    · rfl
    · have hf : faithfulnessOverlapFrac response context = 0 := by
        unfold faithfulnessOverlapFrac
        rw [h2]
        simp
      rw [hf, hmin, round3_zero]
  · intro h1 h2
    unfold calculate_relevancy_heuristic
    split_ifs with hg
    · rfl
    · have hf : relevancyOverlapFrac query other = 0 := by
        unfold relevancyOverlapFrac
        rw [h2]
        simp
      rw [hf, hmin, round3_zero]

/-- Witness for C10 at a whitespace-only response and query. -/
theorem C10_witness :
    calculate_faithfulness_heuristic " " ["doc"] = 0 ∧
    calculate_relevancy_heuristic " " "hello" = 0 :=
  ⟨(C10_whitespace_tokenless_safe " " " " "hello" ["doc"]).1 (by decide) (by decide),
   (C10_whitespace_tokenless_safe " " " " "hello" ["doc"]).2 (by decide) (by decide)⟩

/-- Claim C5: each of the four heuristic metric scores lies in the closed
interval zero to one, and the overall score is the rounded arithmetic mean of
the four, hence also lies in that interval. -/
theorem C5_metricset_bounds (result : RawResult) :
    (0 ≤ (evaluate_result_heuristic result).metrics.faithfulness ∧
      (evaluate_result_heuristic result).metrics.faithfulness ≤ 1) ∧
    (0 ≤ (evaluate_result_heuristic result).metrics.answer_relevancy ∧
      (evaluate_result_heuristic result).metrics.answer_relevancy ≤ 1) ∧
    (0 ≤ (evaluate_result_heuristic result).metrics.context_precision ∧
      (evaluate_result_heuristic result).metrics.context_precision ≤ 1) ∧
    (0 ≤ (evaluate_result_heuristic result).metrics.context_recall ∧
      (evaluate_result_heuristic result).metrics.context_recall ≤ 1) ∧
    (evaluate_result_heuristic result).overall_score
      = round3 (((evaluate_result_heuristic result).metrics.faithfulness
          + (evaluate_result_heuristic result).metrics.answer_relevancy
          + (evaluate_result_heuristic result).metrics.context_precision
          + (evaluate_result_heuristic result).metrics.context_recall) / 4) ∧
    (0 ≤ (evaluate_result_heuristic result).overall_score ∧
      (evaluate_result_heuristic result).overall_score ≤ 1) := by
  have hf : 0 ≤ (evaluate_result_heuristic result).metrics.faithfulness ∧
      (evaluate_result_heuristic result).metrics.faithfulness ≤ 1 :=
    faithfulness_mem01 (result.generated_response.getD "") (result.retrieved_documents.getD [])
  have hr : 0 ≤ (evaluate_result_heuristic result).metrics.answer_relevancy ∧
      (evaluate_result_heuristic result).metrics.answer_relevancy ≤ 1 :=
    relevancy_mem01 (result.query.getD "") (result.generated_response.getD "")
  have hp : 0 ≤ (evaluate_result_heuristic result).metrics.context_precision ∧
      (evaluate_result_heuristic result).metrics.context_precision ≤ 1 :=
    precision_mem01 (result.retrieved_documents.getD [])
  have hc : 0 ≤ (evaluate_result_heuristic result).metrics.context_recall ∧
      (evaluate_result_heuristic result).metrics.context_recall ≤ 1 :=
    recall_mem01 (result.retrieved_documents.getD [])
  have hov : (evaluate_result_heuristic result).overall_score
      = round3 (meanQ [(evaluate_result_heuristic result).metrics.faithfulness,
          (evaluate_result_heuristic result).metrics.answer_relevancy,
          (evaluate_result_heuristic result).metrics.context_precision,
          (evaluate_result_heuristic result).metrics.context_recall]) := rfl
  refine ⟨hf, hr, hp, hc, ?_, ?_, ?_⟩
  · rw [hov, meanQ_four]
  · rw [hov, meanQ_four]
    exact round3_nonneg (by linarith [hf.1, hr.1, hp.1, hc.1])
  · rw [hov, meanQ_four]
    exact round3_le_one (by linarith [hf.2, hr.2, hp.2, hc.2])

/-- Claim C9: loading tolerates an absent results field, and per-record
scoring treats every missing record field as its documented default: empty
query and response, empty document list, the role label unknown, and zero
processing time and source count. -/
theorem C9_missing_field_defaults :
    (∀ inp : InputData, inp.results = none → load_results inp = []) ∧
    (∀ r : RawResult,
      evaluate_result_heuristic { r with query := none }
        = evaluate_result_heuristic { r with query := some "" }) ∧
    (∀ r : RawResult,
      evaluate_result_heuristic { r with generated_response := none }
        = evaluate_result_heuristic { r with generated_response := some "" }) ∧
    (∀ r : RawResult,
      evaluate_result_heuristic { r with retrieved_documents := none }
        = evaluate_result_heuristic { r with retrieved_documents := some [] }) ∧
    (∀ r : RawResult, r.metadata = none →
      (evaluate_result_heuristic r).metadata.user_role = "unknown" ∧
      (evaluate_result_heuristic r).metadata.processing_time_ms = 0 ∧
      (evaluate_result_heuristic r).metadata.source_count = 0) ∧
    (∀ (r : RawResult) (md : RawMetadata), r.metadata = some md → md.userRole = none →
      (evaluate_result_heuristic r).metadata.user_role = "unknown") ∧
    (∀ (r : RawResult) (md : RawMetadata), r.metadata = some md → md.processingTimeMs = none →
      (evaluate_result_heuristic r).metadata.processing_time_ms = 0) ∧
    (∀ (r : RawResult) (md : RawMetadata), r.metadata = some md → md.sourceCount = none →
      (evaluate_result_heuristic r).metadata.source_count = 0) := by
  refine ⟨?_, ?_, ?_, ?_, ?_, ?_, ?_, ?_⟩
  · intro inp h
    simp [load_results, h]
  · intro r
    rfl
  · intro r
    rfl
  · intro r
    rfl
  · intro r h
    simp [evaluate_result_heuristic, h, emptyRawMetadata]
  · intro r md h1 h2
    simp [evaluate_result_heuristic, h1, h2]
  · intro r md h1 h2
    simp [evaluate_result_heuristic, h1, h2]
  · intro r md h1 h2
    simp [evaluate_result_heuristic, h1, h2]

/-- Witness for C9 at fully empty concrete inputs. -/
theorem C9_witness :
    load_results ⟨none⟩ = [] ∧
    (evaluate_result_heuristic ⟨none, none, none, none⟩).metadata.user_role = "unknown" := by
  obtain ⟨h1, _, _, _, h5, _, _, _⟩ := C9_missing_field_defaults
  exact ⟨h1 ⟨none⟩ rfl, (h5 ⟨none, none, none, none⟩ rfl).1⟩

/-- Claim C6: for a non-empty evaluation list the per-role counts sum to
total_evaluations, the by_role keys are exactly the roles occurring among the
evaluations, and every listed role has a count of at least one. -/
theorem C6_role_count_invariants (evals : List Evaluation) (h : evals ≠ []) :
    ∃ rep : AggregateReport, calculate_aggregate_metrics evals = some rep ∧
      (rep.by_role.map (fun p => p.2.count)).sum = rep.total_evaluations ∧
      (∀ k : String, k ∈ rep.by_role.map Prod.fst ↔ k ∈ evals.map roleOf) ∧
      (∀ p ∈ rep.by_role, 1 ≤ p.2.count) := by
  have hrep : calculate_aggregate_metrics evals = some
      { total_evaluations := evals.length
        overall_metrics := overallMetricsOf evals
        by_role := (groupByRole evals).map (fun p => (p.1, roleMetricsOf p.2)) } := by
    unfold calculate_aggregate_metrics
    rw [if_neg h]
  refine ⟨_, hrep, ?_, ?_, ?_⟩
  · show ((((groupByRole evals).map (fun p => (p.1, roleMetricsOf p.2))).map
        (fun p => p.2.count)).sum) = evals.length
    rw [List.map_map]
    have hcomp : ((fun p : String × RoleMetrics => p.2.count) ∘
        (fun p : String × List Evaluation => (p.1, roleMetricsOf p.2)))
        = fun p : String × List Evaluation => p.2.length := rfl
    rw [hcomp]
    have hsum := foldl_insertRole_sum evals []
    unfold groupByRole
    simpa using hsum
  · intro k
    show k ∈ (((groupByRole evals).map (fun p => (p.1, roleMetricsOf p.2))).map Prod.fst) ↔ _
    rw [List.map_map]
    have hcomp : (Prod.fst ∘ (fun p : String × List Evaluation => (p.1, roleMetricsOf p.2)))
        = (Prod.fst : String × List Evaluation → String) := rfl
    rw [hcomp]
    exact mem_keys_groupByRole evals k
  · intro p hp
    rw [List.mem_map] at hp
    obtain ⟨q, hq, rfl⟩ := hp
    show 1 ≤ q.2.length
    have hne := groupByRole_groups_ne_nil evals q hq
    have hpos : 0 < q.2.length := List.length_pos.mpr hne
    omega

/-- A sample evaluation used to instantiate the aggregation theorems at a
concrete input. -/
def sampleEvalA : Evaluation :=
  { query := "q"
    metrics := { faithfulness := 0, answer_relevancy := 0,
                 context_precision := 0, context_recall := 0 }
    metadata := { user_role := "admin", processing_time_ms := 0, source_count := 0,
                  session_id := "", timestamp := "" }
    overall_score := 0 }

/-- Witness for C6 at a concrete one-evaluation list. -/
theorem C6_witness :
    ∃ rep : AggregateReport, calculate_aggregate_metrics [sampleEvalA] = some rep ∧
      (rep.by_role.map (fun p => p.2.count)).sum = rep.total_evaluations ∧
      (∀ k : String, k ∈ rep.by_role.map Prod.fst ↔ k ∈ [sampleEvalA].map roleOf) ∧
      (∀ p ∈ rep.by_role, 1 ≤ p.2.count) :=
  C6_role_count_invariants [sampleEvalA] (by simp)

/-- Claim C7: for every role occurring among the evaluations, the by_role
entry of that role holds the rounded means of each metric over exactly the
evaluations of that role, and overall_metrics holds the rounded means over
all evaluations. -/
theorem C7_role_group_means (evals : List Evaluation) (R : String)
    (hR : R ∈ evals.map roleOf) :
    ∃ rep : AggregateReport, calculate_aggregate_metrics evals = some rep ∧
      lookupRole R rep.by_role = some
        { count := (evals.filter (fun e => roleOf e = R)).length
          faithfulness := round3 (meanQ ((evals.filter (fun e => roleOf e = R)).map
            (fun e => e.metrics.faithfulness)))
          answer_relevancy := round3 (meanQ ((evals.filter (fun e => roleOf e = R)).map
            (fun e => e.metrics.answer_relevancy)))
          context_precision := round3 (meanQ ((evals.filter (fun e => roleOf e = R)).map
            (fun e => e.metrics.context_precision)))
          context_recall := round3 (meanQ ((evals.filter (fun e => roleOf e = R)).map
            (fun e => e.metrics.context_recall)))
          overall_score := round3 (meanQ ((evals.filter (fun e => roleOf e = R)).map
            (fun e => e.overall_score))) } ∧
      rep.overall_metrics = overallMetricsOf evals := by
  have hne : evals ≠ [] := by
    intro hc
    rw [hc] at hR
    simp at hR
  have hrep : calculate_aggregate_metrics evals = some
      { total_evaluations := evals.length
        overall_metrics := overallMetricsOf evals
        by_role := (groupByRole evals).map (fun p => (p.1, roleMetricsOf p.2)) } := by
    unfold calculate_aggregate_metrics
    rw [if_neg hne]
  refine ⟨_, hrep, ?_, rfl⟩
  show lookupRole R ((groupByRole evals).map (fun p => (p.1, roleMetricsOf p.2))) = _
  rw [lookupRole_map_roleMetrics]
  have hget : getGroup R (groupByRole evals) = evals.filter (fun e => roleOf e = R) :=
    getGroup_groupByRole evals R
  have hfilter_ne : evals.filter (fun e => roleOf e = R) ≠ [] := by
    rw [List.mem_map] at hR
    obtain ⟨e, he, hrole⟩ := hR
    intro hc
    have hmem : e ∈ evals.filter (fun e => roleOf e = R) := by
      rw [List.mem_filter]
      exact ⟨he, by simp [hrole]⟩
    rw [hc] at hmem
    simp at hmem
  cases hlk : lookupGroup R (groupByRole evals) with
  | none =>
    exfalso
    apply hfilter_ne
    rw [← hget]
    unfold getGroup
    rw [hlk]
    rfl
  | some v =>
    have hv : v = evals.filter (fun e => roleOf e = R) := by
      rw [← hget]
      unfold getGroup
      rw [hlk]
      rfl
    rw [hv]
    rfl

/-- Witness for C7 at a concrete one-evaluation list with role admin. -/
theorem C7_witness :
    ∃ rep : AggregateReport, calculate_aggregate_metrics [sampleEvalA] = some rep ∧
      lookupRole "admin" rep.by_role = some
        { count := ([sampleEvalA].filter (fun e => roleOf e = "admin")).length
          faithfulness := round3 (meanQ (([sampleEvalA].filter (fun e => roleOf e = "admin")).map
            (fun e => e.metrics.faithfulness)))
          answer_relevancy := round3 (meanQ (([sampleEvalA].filter (fun e => roleOf e = "admin")).map
            (fun e => e.metrics.answer_relevancy)))
          context_precision := round3 (meanQ (([sampleEvalA].filter (fun e => roleOf e = "admin")).map
            (fun e => e.metrics.context_precision)))
          context_recall := round3 (meanQ (([sampleEvalA].filter (fun e => roleOf e = "admin")).map
            (fun e => e.metrics.context_recall)))
          overall_score := round3 (meanQ (([sampleEvalA].filter (fun e => roleOf e = "admin")).map
            (fun e => e.overall_score))) } ∧
      rep.overall_metrics = overallMetricsOf [sampleEvalA] :=
  C7_role_group_means [sampleEvalA] "admin" (by simp [roleOf, sampleEvalA])

/-- The concrete record used to exhibit claim C2. -/
def c2Record : RawResult := ⟨some "a", some "b", some ["c"], none⟩

/-- The successful external scorer mapping used to exhibit claim C2. -/
def c2External : List (String × RValue) := [("faithfulness", RValue.num (9/10))]

/-- Claim C2 fails on the code: the external batched call succeeds with
faithfulness 0.9, and process_ragas_results would carry that value into
overall_metrics, yet the pipeline then overwrites the processed external
aggregate with the heuristic aggregate, whose faithfulness here is 0. -/
theorem C2_external_aggregate_discarded :
    (process_ragas_results c2External).map (fun p => p.overall_metrics)
      = some [("faithfulness", (9 : ℚ)/10)] ∧
    ∃ out : MainOutcome,
      main_process [c2Record] (ExternalCap.succeeds c2External) = some out ∧
      ∃ rep : AggregateReport, out.aggregate = some rep ∧
        rep.overall_metrics.faithfulness = 0 ∧
        rep.overall_metrics.faithfulness ≠ (9 : ℚ)/10 := by
  have h910 : round3 (9/10) = 9/10 := by norm_num [round3, roundHalfEven]
  have hfrac : faithfulnessOverlapFrac "b" ["c"] = 0 := by
    have h1 : ((pySplit (lowerStr "b")).dedup).length = 1 := by decide
    have h2 : (((pySplit (lowerStr "b")).dedup).filter
        (fun w => w ∈ ((pySplit (lowerStr (joinSep " " ["c"]))).dedup))).length = 0 := by decide
    unfold faithfulnessOverlapFrac
    rw [h1, h2]
    norm_num
  have hfaith : calculate_faithfulness_heuristic "b" ["c"] = 0 := by
    unfold calculate_faithfulness_heuristic
    rw [if_neg (by simp), hfrac, min_eq_left (by norm_num), round3_zero]
  have hne2 : c2External ≠ [] := by simp [c2External]
  have hmain : main_process [c2Record] (ExternalCap.succeeds c2External)
      = some { evaluations := [evaluate_result_heuristic c2Record]
               aggregate := calculate_aggregate_metrics [evaluate_result_heuristic c2Record] } := by
    simp only [main_process, evaluate_all]
    rw [if_neg hne2]
    rfl
  have hagg : calculate_aggregate_metrics [evaluate_result_heuristic c2Record]
      = some { total_evaluations := 1
               overall_metrics := overallMetricsOf [evaluate_result_heuristic c2Record]
               by_role := (groupByRole [evaluate_result_heuristic c2Record]).map
                 (fun p => (p.1, roleMetricsOf p.2)) } := by
    unfold calculate_aggregate_metrics
    rw [if_neg (by simp)]
    rfl
  have hovf : (overallMetricsOf [evaluate_result_heuristic c2Record]).faithfulness = 0 := by
    show round3 (meanQ [(evaluate_result_heuristic c2Record).metrics.faithfulness]) = 0
    have he : (evaluate_result_heuristic c2Record).metrics.faithfulness
        = calculate_faithfulness_heuristic "b" ["c"] := rfl
    rw [he, hfaith]
    have hm : meanQ [(0 : ℚ)] = 0 := by norm_num [meanQ]
    rw [hm, round3_zero]
  constructor
  · simp [process_ragas_results, c2External, h910]
  · refine ⟨_, hmain, _, hagg, hovf, ?_⟩
    rw [hovf]
    norm_num

/-- Witness for C3 at a concrete record list. -/
theorem C3_witness :
    evaluate_all [c2Record] ExternalCap.raises = evaluate_all [c2Record] ExternalCap.absent ∧
    main_process [c2Record] ExternalCap.raises = main_process [c2Record] ExternalCap.absent :=
  C3_raises_equals_absent [c2Record]

/-- Witness for C5 at a concrete fully-empty record. -/
theorem C5_witness :
    (0 ≤ (evaluate_result_heuristic ⟨none, none, none, none⟩).metrics.faithfulness ∧
      (evaluate_result_heuristic ⟨none, none, none, none⟩).metrics.faithfulness ≤ 1) ∧
    (0 ≤ (evaluate_result_heuristic ⟨none, none, none, none⟩).metrics.answer_relevancy ∧
      (evaluate_result_heuristic ⟨none, none, none, none⟩).metrics.answer_relevancy ≤ 1) ∧
    (0 ≤ (evaluate_result_heuristic ⟨none, none, none, none⟩).metrics.context_precision ∧
      (evaluate_result_heuristic ⟨none, none, none, none⟩).metrics.context_precision ≤ 1) ∧
    (0 ≤ (evaluate_result_heuristic ⟨none, none, none, none⟩).metrics.context_recall ∧
      (evaluate_result_heuristic ⟨none, none, none, none⟩).metrics.context_recall ≤ 1) ∧
    (evaluate_result_heuristic ⟨none, none, none, none⟩).overall_score
      = round3 (((evaluate_result_heuristic ⟨none, none, none, none⟩).metrics.faithfulness
          + (evaluate_result_heuristic ⟨none, none, none, none⟩).metrics.answer_relevancy
          + (evaluate_result_heuristic ⟨none, none, none, none⟩).metrics.context_precision
          + (evaluate_result_heuristic ⟨none, none, none, none⟩).metrics.context_recall) / 4) ∧
    (0 ≤ (evaluate_result_heuristic ⟨none, none, none, none⟩).overall_score ∧
      (evaluate_result_heuristic ⟨none, none, none, none⟩).overall_score ≤ 1) :=
  C5_metricset_bounds ⟨none, none, none, none⟩
